import Mathlib

/-!
Verification of the year-scoped aggregation and ranking pipeline of the
mortality dashboard (`app.py`).

The dashboard loads a mortality record table and a municipal polygon table,
filters the polygons to department code "05", inner-merges the two tables on
the municipality code, and serves callbacks that group the merged table by
municipality, aggregate a metric (mean of `TasaXMilHabitantes` or sum of
`NumeroCasos`), and rank the top/bottom 10 municipalities.

Shallow embedding choices:
* a data frame is a `List` of rows (structures);
* floating-point columns are modelled as `ℚ` (exact arithmetic in place of
  IEEE floats; none of the verified properties is float-sensitive);
* geometry objects are opaque tokens (`Nat`);
* `pandas` `groupby(sort=True)` produces groups keyed by the sorted list of
  distinct keys, each group being the filter of the input by its key;
* `Series.nlargest(n)`/`nsmallest(n)` with the default `keep="first"` are a
  stable sort by value (descending resp. ascending) followed by `take n`:
  ties keep their input order, and at the cutoff the earliest rows are kept,
  which is exactly pandas' documented behaviour.  Stability is modelled with
  a stable insertion sort.
-/

/-- One row of the mortality CSV (`dataset` in `app.py`): columns
`CodigoMunicipio` (read as `str`), `NombreMunicipio`, the region name, `Año`,
`NumeroCasos`, `TasaXMilHabitantes`. -/
structure MortalityRecord where
  codigoMunicipio : String
  nombreMunicipio : String
  nombreRegion : String
  anio : Int
  numeroCasos : Nat
  tasaXMilHabitantes : ℚ
  deriving Repr, DecidableEq

/-- One row of the raw shapefile (`gpd.read_file` in `app.py`), before the
department filter: `DPTO_CCDGO`, `MPIO_CDPMP`, `MPIO_CNMBR`, `geometry`. -/
structure ShapeRow where
  dpto_ccdgo : String
  mpio_cdpmp : String
  mpio_cnmbr : String
  geometry : Nat
  deriving Repr, DecidableEq

/-- One row of `gdf` after the loader's filtering/projection:
`gdf[gdf["DPTO_CCDGO"] == "05"][["MPIO_CDPMP", "MPIO_CNMBR", "geometry"]]`. -/
structure Boundary where
  mpio_cdpmp : String
  mpio_cnmbr : String
  geometry : Nat
  deriving Repr, DecidableEq

/-- The loader's boundary table: shapefile rows restricted to department
`"05"`, keeping the three columns (reprojection does not change the embedding,
geometry being opaque). -/
def gdfAntioquia (shp : List ShapeRow) : List Boundary :=
  (shp.filter (fun s => s.dpto_ccdgo == "05")).map
    (fun s => ⟨s.mpio_cdpmp, s.mpio_cnmbr, s.geometry⟩)

/-- One row of `df_merge = gdf.merge(dataset, left_on="MPIO_CDPMP",
right_on="CodigoMunicipio")`: the boundary columns followed by the record
columns. -/
structure JoinedRow where
  mpio_cdpmp : String
  mpio_cnmbr : String
  geometry : Nat
  codigoMunicipio : String
  nombreMunicipio : String
  nombreRegion : String
  anio : Int
  numeroCasos : Nat
  tasaXMilHabitantes : ℚ
  deriving Repr, DecidableEq

/-- The joined row built from a boundary row and a matching record. -/
def mkJoined (b : Boundary) (r : MortalityRecord) : JoinedRow :=
  ⟨b.mpio_cdpmp, b.mpio_cnmbr, b.geometry,
   r.codigoMunicipio, r.nombreMunicipio, r.nombreRegion,
   r.anio, r.numeroCasos, r.tasaXMilHabitantes⟩

/-- `df_merge`: the inner merge of `gdf` with `dataset` on
`MPIO_CDPMP = CodigoMunicipio`.  Pandas' inner merge preserves the order of
the left keys; each left row is paired with every matching right row in
right-table order, and rows without a partner on the other side are dropped. -/
def df_merge (gdf : List Boundary) (dataset : List MortalityRecord) :
    List JoinedRow :=
  gdf.flatMap (fun b =>
    (dataset.filter (fun r => r.codigoMunicipio == b.mpio_cdpmp)).map
      (mkJoined b))

/-- A year selected in a dropdown: the sentinel `"Todos los años"` or a
specific year. -/
inductive Anio where
  | todos : Anio
  | year : Int → Anio
  deriving Repr, DecidableEq

/-- The year filter shared by all callbacks:
`df_merge if anio == "Todos los años" else df_merge[df_merge["Año"] == anio]`. -/
def filtraAnio (sel : Anio) (rows : List JoinedRow) : List JoinedRow :=
  match sel with
  | .todos => rows
  | .year y => rows.filter (fun r => r.anio == y)

/- ### Stable insertion sort (the embedding of pandas' stable selection) -/

/-- Insert `x` into `l` before the first element `b` with `le x b`; with a
total `le` this is the insertion step of a stable insertion sort. -/
def insertBy (le : α → α → Bool) (x : α) : List α → List α
  | [] => [x]
  | b :: l => if le x b then x :: b :: l else b :: insertBy le x l

/-- Stable insertion sort by the Boolean comparator `le`. -/
def sortBy (le : α → α → Bool) : List α → List α
  | [] => []
  | x :: xs => insertBy le x (sortBy le xs)

theorem length_insertBy (le : α → α → Bool) (x : α) :
    ∀ l : List α, (insertBy le x l).length = l.length + 1 := by
  intro l
  induction l with
  | nil => rfl
  | cons b l ih =>
    by_cases h : le x b = true
    · simp [insertBy, h]
    · simp [insertBy, h, ih]

theorem length_sortBy (le : α → α → Bool) :
    ∀ l : List α, (sortBy le l).length = l.length := by
  intro l
  induction l with
  | nil => rfl
  | cons x xs ih => simp [sortBy, length_insertBy, ih]

theorem perm_insertBy (le : α → α → Bool) (x : α) :
    ∀ l : List α, List.Perm (insertBy le x l) (x :: l) := by
  intro l
  induction l with
  | nil => simp [insertBy]
  | cons b l ih =>
    by_cases h : le x b = true
    · simp [insertBy, h]
    · simpa [insertBy, h] using
        (ih.cons b).trans (List.Perm.swap x b l)

theorem perm_sortBy (le : α → α → Bool) :
    ∀ l : List α, List.Perm (sortBy le l) l := by
  intro l
  induction l with
  | nil => exact List.Perm.refl _
  | cons x xs ih =>
    exact (perm_insertBy le x (sortBy le xs)).trans (ih.cons x)

theorem mem_sortBy (le : α → α → Bool) (l : List α) (a : α) :
    a ∈ sortBy le l ↔ a ∈ l :=
  (perm_sortBy le l).mem_iff

theorem pairwise_insertBy (le : α → α → Bool)
    (htot : ∀ a b : α, le a b = true ∨ le b a = true)
    (htrans : ∀ a b c : α, le a b = true → le b c = true → le a c = true)
    (x : α) :
    ∀ l : List α, l.Pairwise (fun a b => le a b = true) →
      (insertBy le x l).Pairwise (fun a b => le a b = true) := by
  intro l
  induction l with
  | nil => intro _; simp [insertBy]
  | cons b l ih =>
    intro hp
    rcases List.pairwise_cons.mp hp with ⟨hb, hl⟩
    by_cases h : le x b = true
    · rw [insertBy, if_pos h]
      refine List.pairwise_cons.mpr ⟨?_, hp⟩
      intro c hc
      rcases List.mem_cons.mp hc with hcb | hcl
      · subst hcb; exact h
      · exact htrans x b c h (hb c hcl)
    · rw [insertBy, if_neg h]
      refine List.pairwise_cons.mpr ⟨?_, ih hl⟩
      intro c hc
      have hbx : le b x = true := (htot x b).resolve_left h
      rcases List.mem_cons.mp ((perm_insertBy le x l).mem_iff.mp hc) with hcx | hcl
      · subst hcx; exact hbx
      · exact hb c hcl

theorem pairwise_sortBy (le : α → α → Bool)
    (htot : ∀ a b : α, le a b = true ∨ le b a = true)
    (htrans : ∀ a b c : α, le a b = true → le b c = true → le a c = true) :
    ∀ l : List α, (sortBy le l).Pairwise (fun a b => le a b = true) := by
  intro l
  induction l with
  | nil => simp [sortBy]
  | cons x xs ih => exact pairwise_insertBy le htot htrans x _ ih

theorem pairwise_tie_insertBy (le : α → α → Bool) (v : α → ℚ) (nm : α → String)
    (hv : ∀ a b : α, le a b = false → v a ≠ v b) (x : α) :
    ∀ l : List α, l.Pairwise (fun a b => v a = v b → nm a < nm b) →
      (∀ b ∈ l, nm x < nm b) →
      (insertBy le x l).Pairwise (fun a b => v a = v b → nm a < nm b) := by
  intro l
  induction l with
  | nil =>
    intro _ _
    simp [insertBy]
  | cons b l ih =>
    intro hp hname
    rcases List.pairwise_cons.mp hp with ⟨hb, hl⟩
    by_cases h : le x b = true
    · rw [insertBy, if_pos h]
      refine List.pairwise_cons.mpr ⟨?_, hp⟩
      intro c hc _
      exact hname c hc
    · rw [insertBy, if_neg h]
      refine List.pairwise_cons.mpr ⟨?_, ?_⟩
      · intro c hc hvbc
        rcases List.mem_cons.mp ((perm_insertBy le x l).mem_iff.mp hc) with hcx | hcl
        · subst hcx
          exact absurd hvbc.symm (hv c b (Bool.eq_false_iff.mpr h))
        · exact hb c hcl hvbc
      · exact ih hl (fun c hc => hname c (List.mem_cons_of_mem b hc))

theorem pairwise_tie_sortBy (le : α → α → Bool) (v : α → ℚ) (nm : α → String)
    (hv : ∀ a b : α, le a b = false → v a ≠ v b) :
    ∀ l : List α, l.Pairwise (fun a b => nm a < nm b) →
      (sortBy le l).Pairwise (fun a b => v a = v b → nm a < nm b) := by
  intro l
  induction l with
  | nil =>
    intro _
    simp [sortBy]
  | cons x xs ih =>
    intro hp
    rcases List.pairwise_cons.mp hp with ⟨hx, hxs⟩
    exact pairwise_tie_insertBy le v nm hv x _ (ih hxs)
      (fun b hb => hx b ((perm_sortBy le xs).mem_iff.mp hb))

/- ### Grouped aggregation (`groupby` with `sort=True`, `mean`/`sum`) -/

/-- Sum of a rational column (`Series.sum`). -/
def qsum (l : List ℚ) : ℚ := l.sum

/-- Mean of a rational column (`Series.mean`); only ever applied to nonempty
groups, since `groupby` creates a group only for a key that occurs. -/
def qmean (l : List ℚ) : ℚ := l.sum / l.length

/-- Boolean order on strings (pandas sorts group keys ascending). -/
def strLe (a b : String) : Bool := decide (a ≤ b)

/-- Boolean order on integers. -/
def intLe (a b : Int) : Bool := decide (a ≤ b)

/-- Boolean order on rationals. -/
def ratLe (a b : ℚ) : Bool := decide (a ≤ b)

/-- Lexicographic Boolean order on (name, geometry) keys. -/
def pairLe (p q : String × Nat) : Bool :=
  decide (p.1 < q.1) || (p.1 == q.1 && decide (p.2 ≤ q.2))

/-- The sorted distinct keys of `df.groupby("NombreMunicipio")`. -/
def groupKeys (rows : List JoinedRow) : List String :=
  sortBy strLe ((rows.map (fun r => r.nombreMunicipio)).dedup)

/-- One output row of an aggregation: a municipality and its metric value. -/
structure AggregateRow where
  nombreMunicipio : String
  metricValue : ℚ
  deriving Repr, DecidableEq

/-- `df.groupby("NombreMunicipio")["TasaXMilHabitantes"].mean().reset_index()`:
one row per distinct municipality (keys sorted ascending), carrying the mean
of the rate column over that municipality's rows. -/
def groupMeanTasa (rows : List JoinedRow) : List AggregateRow :=
  (groupKeys rows).map (fun m =>
    ⟨m, qmean ((rows.filter (fun r => r.nombreMunicipio == m)).map
        (fun r => r.tasaXMilHabitantes))⟩)

/-- `df.groupby("NombreMunicipio")["NumeroCasos"].sum().reset_index()`. -/
def groupSumCasos (rows : List JoinedRow) : List AggregateRow :=
  (groupKeys rows).map (fun m =>
    ⟨m, qsum ((rows.filter (fun r => r.nombreMunicipio == m)).map
        (fun r => (r.numeroCasos : ℚ)))⟩)

/- ### Ranking (`nlargest` / `nsmallest`, `keep="first"`) -/

/-- Comparator for descending value order; ties compare `true`, so the stable
sort keeps their input order (pandas `keep="first"`). -/
def geVal (a b : AggregateRow) : Bool := decide (b.metricValue ≤ a.metricValue)

/-- Comparator for ascending value order; ties compare `true`. -/
def leVal (a b : AggregateRow) : Bool := decide (a.metricValue ≤ b.metricValue)

/-- `Series.nlargest(n)`: stable descending sort, first `n` entries. -/
def nlargest (n : Nat) (l : List AggregateRow) : List AggregateRow :=
  (sortBy geVal l).take n

/-- `Series.nsmallest(n)`: stable ascending sort, first `n` entries. -/
def nsmallest (n : Nat) (l : List AggregateRow) : List AggregateRow :=
  (sortBy leVal l).take n

/-- Ranking direction: top-10 ("más altos") or bottom-10 ("más bajos"). -/
inductive Direction where
  | descendente : Direction
  | ascendente : Direction
  deriving Repr, DecidableEq

/-- Metric selector: mean rate or summed case count. -/
inductive Metric where
  | tasaMedia : Metric
  | casosSuma : Metric
  deriving Repr, DecidableEq

/-- The Aggregator: the groupby step shared by the four top-10 callbacks. -/
def agrega (m : Metric) (rows : List JoinedRow) : List AggregateRow :=
  match m with
  | .tasaMedia => groupMeanTasa rows
  | .casosSuma => groupSumCasos rows

/-- The Ranker: `nlargest(10)` or `nsmallest(10)` on an aggregated series. -/
def rank (d : Direction) (l : List AggregateRow) : List AggregateRow :=
  match d with
  | .descendente => nlargest 10 l
  | .ascendente => nsmallest 10 l

/-- Callback `top10_tasa_alta`: year filter, groupby mean rate, `nlargest(10)`. -/
def top10_tasa_alta (rows : List JoinedRow) (sel : Anio) : List AggregateRow :=
  nlargest 10 (groupMeanTasa (filtraAnio sel rows))

/-- Callback `top10_tasa_baja`: year filter, groupby mean rate, `nsmallest(10)`. -/
def top10_tasa_baja (rows : List JoinedRow) (sel : Anio) : List AggregateRow :=
  nsmallest 10 (groupMeanTasa (filtraAnio sel rows))

/-- Callback `top10_casos_alto`: year filter, groupby case sum, `nlargest(10)`. -/
def top10_casos_alto (rows : List JoinedRow) (sel : Anio) : List AggregateRow :=
  nlargest 10 (groupSumCasos (filtraAnio sel rows))

/-- Callback `top10_casos_bajo`: year filter, groupby case sum, `nsmallest(10)`. -/
def top10_casos_bajo (rows : List JoinedRow) (sel : Anio) : List AggregateRow :=
  nsmallest 10 (groupSumCasos (filtraAnio sel rows))

/- ### Map callbacks -/

/-- Sorted distinct keys of `df.groupby(["NombreMunicipio", "geometry"])`. -/
def geoKeys (rows : List JoinedRow) : List (String × Nat) :=
  sortBy pairLe ((rows.map (fun r => (r.nombreMunicipio, r.geometry))).dedup)

/-- The all-years branch of `update_mapa_tasa`:
`df_merge.groupby(["NombreMunicipio", "geometry"]).agg({"TasaXMilHabitantes": "mean"})`. -/
def mapaTasaTodos (rows : List JoinedRow) : List ((String × Nat) × ℚ) :=
  (geoKeys rows).map (fun k =>
    (k, qmean ((rows.filter (fun r =>
        r.nombreMunicipio == k.1 && r.geometry == k.2)).map
        (fun r => r.tasaXMilHabitantes))))

/-- The all-years branch of `update_mapa_casos`:
`df_merge.groupby(["NombreMunicipio", "geometry"]).agg({"NumeroCasos": "sum"})`. -/
def mapaCasosTodos (rows : List JoinedRow) : List ((String × Nat) × ℚ) :=
  (geoKeys rows).map (fun k =>
    (k, qsum ((rows.filter (fun r =>
        r.nombreMunicipio == k.1 && r.geometry == k.2)).map
        (fun r => (r.numeroCasos : ℚ)))))

/-- The data frame a map callback hands to `px.choropleth`: aggregated rows
for "Todos los años", the raw year-filtered joined rows otherwise. -/
inductive MapaDf where
  | agregado : List ((String × Nat) × ℚ) → MapaDf
  | filtrado : List JoinedRow → MapaDf
  deriving Repr, DecidableEq

/-- Callback `update_mapa_tasa` up to the figure construction. -/
def update_mapa_tasa (rows : List JoinedRow) (sel : Anio) : MapaDf :=
  match sel with
  | .todos => .agregado (mapaTasaTodos rows)
  | .year y => .filtrado (rows.filter (fun r => r.anio == y))

/-- Callback `update_mapa_casos` up to the figure construction. -/
def update_mapa_casos (rows : List JoinedRow) (sel : Anio) : MapaDf :=
  match sel with
  | .todos => .agregado (mapaCasosTodos rows)
  | .year y => .filtrado (rows.filter (fun r => r.anio == y))

/-- `lista_anios = ["Todos los años"] + sorted(df_merge["Año"].unique().tolist())`:
the sentinel followed by the distinct years in ascending order. -/
def lista_anios (rows : List JoinedRow) : List Anio :=
  .todos :: (sortBy intLe ((rows.map (fun r => r.anio)).dedup)).map .year

/- ### Descriptive statistics (`resumen_stats`) -/

/-- Linear interpolation at fractional rank `pos` of an ascending-sorted
column `s`: the value at index `⌊pos⌋`, moved `pos - ⌊pos⌋` of the way
towards the next value. -/
def interpAt (s : List ℚ) (pos : ℚ) : ℚ :=
  s.getD (Rat.floor pos).toNat 0
    + (pos - ((Rat.floor pos).toNat : ℚ))
      * (s.getD ((Rat.floor pos).toNat + 1) (s.getD (Rat.floor pos).toNat 0)
         - s.getD (Rat.floor pos).toNat 0)

/-- `Series.quantile(q)` with pandas' default linear interpolation: the value
at fractional position `q * (n - 1)` of the ascending-sorted column, linearly
interpolated between the two neighbouring ranks.  `Series.median()` equals
`quantile(0.5)`. -/
def quantileLinear (l : List ℚ) (q : ℚ) : ℚ :=
  interpAt (sortBy ratLe l) (q * (((sortBy ratLe l).length : ℚ) - 1))

/-- The six-number summary a `resumen(x)` row carries: `Mínimo`, `1er
Cuartil`, `Mediana`, `Media`, `3er Cuartil`, `Máximo`. -/
structure Resumen where
  minimo : ℚ
  cuartil1 : ℚ
  mediana : ℚ
  media : ℚ
  cuartil3 : ℚ
  maximo : ℚ
  deriving Repr, DecidableEq

/-- `resumen(x)` of `resumen_stats`: the six summary statistics of a numeric
column.  On an empty column pandas produces `NaN`s, modelled as `none`;
minimum and maximum are read off the ascending-sorted column. -/
def resumen (x : List ℚ) : Option Resumen :=
  if x = [] then none
  else some
    ⟨(sortBy ratLe x).getD 0 0,
     quantileLinear x (1/4),
     quantileLinear x (1/2),
     qmean x,
     quantileLinear x (3/4),
     ((sortBy ratLe x).getLast?).getD 0⟩

/-- The two rows of the `resumen_stats` table. -/
structure ResumenStats where
  numeroCasos : Option Resumen
  tasa : Option Resumen
  deriving Repr, DecidableEq

/-- Callback `resumen_stats`: six-number summaries of the `NumeroCasos` and
`TasaXMilHabitantes` columns of `df_merge` (the joined table). -/
def resumen_stats (rows : List JoinedRow) : ResumenStats :=
  ⟨resumen (rows.map (fun r => (r.numeroCasos : ℚ))),
   resumen (rows.map (fun r => r.tasaXMilHabitantes))⟩

/-- The same six-number summaries computed over a raw record table.  Applied
to the full record table this is the computation the specification describes
("over every MortalityRecord parsed from the record table"), stated here for
comparison with `resumen_stats`, which the code runs on the joined table. -/
def resumenStatsRecords (dataset : List MortalityRecord) : ResumenStats :=
  ⟨resumen (dataset.map (fun r => (r.numeroCasos : ℚ))),
   resumen (dataset.map (fun r => r.tasaXMilHabitantes))⟩

/- ### Concrete fixture data (used by witnesses and counterexamples) -/

/-- Two boundary rows: municipalities `A` (code 05001) and `B` (code 05002). -/
def demoGdf : List Boundary := [⟨"05001", "A", 1⟩, ⟨"05002", "B", 2⟩]

/-- Five mortality records: the rate values follow the spec's worked example
(`A: [2020: 1.5, 2021: 2.5]`, `B: [2020: 3.0, 2021: 1.0]`), and the last
record carries code `09999`, which matches no boundary. -/
def demoDataset : List MortalityRecord :=
  [⟨"05001", "A", "R1", 2020, 120, 3/2⟩,
   ⟨"05001", "A", "R1", 2021, 100, 5/2⟩,
   ⟨"05002", "B", "R2", 2020, 45, 3⟩,
   ⟨"05002", "B", "R2", 2021, 30, 1⟩,
   ⟨"09999", "Z", "R3", 2020, 7, 9⟩]

/-- The joined fixture table. -/
def demoRows : List JoinedRow := df_merge demoGdf demoDataset

/- ### Comparator facts -/

theorem strLe_iff (a b : String) : strLe a b = true ↔ a ≤ b := by
  simp [strLe]

theorem strLe_total (a b : String) : strLe a b = true ∨ strLe b a = true := by
  simp only [strLe, decide_eq_true_eq]
  exact le_total a b

theorem strLe_trans (a b c : String) (hab : strLe a b = true)
    (hbc : strLe b c = true) : strLe a c = true := by
  simp only [strLe, decide_eq_true_eq] at hab hbc ⊢
  exact le_trans hab hbc

theorem intLe_iff (a b : Int) : intLe a b = true ↔ a ≤ b := by
  simp [intLe]

theorem intLe_total (a b : Int) : intLe a b = true ∨ intLe b a = true := by
  simp only [intLe, decide_eq_true_eq]
  exact le_total a b

theorem intLe_trans (a b c : Int) (hab : intLe a b = true)
    (hbc : intLe b c = true) : intLe a c = true := by
  simp only [intLe, decide_eq_true_eq] at hab hbc ⊢
  exact le_trans hab hbc

theorem ratLe_iff (a b : ℚ) : ratLe a b = true ↔ a ≤ b := by
  simp [ratLe]

theorem ratLe_total (a b : ℚ) : ratLe a b = true ∨ ratLe b a = true := by
  simp only [ratLe, decide_eq_true_eq]
  exact le_total a b

theorem ratLe_trans (a b c : ℚ) (hab : ratLe a b = true)
    (hbc : ratLe b c = true) : ratLe a c = true := by
  simp only [ratLe, decide_eq_true_eq] at hab hbc ⊢
  exact le_trans hab hbc

theorem geVal_iff (a b : AggregateRow) :
    geVal a b = true ↔ b.metricValue ≤ a.metricValue := by
  simp [geVal]

theorem geVal_total (a b : AggregateRow) :
    geVal a b = true ∨ geVal b a = true := by
  simp only [geVal, decide_eq_true_eq]
  exact (le_total a.metricValue b.metricValue).symm

theorem geVal_trans (a b c : AggregateRow) (hab : geVal a b = true)
    (hbc : geVal b c = true) : geVal a c = true := by
  simp only [geVal, decide_eq_true_eq] at hab hbc ⊢
  exact le_trans hbc hab

theorem geVal_ne (a b : AggregateRow) (h : geVal a b = false) :
    a.metricValue ≠ b.metricValue := by
  simp only [geVal, decide_eq_false_iff_not] at h
  exact ne_of_lt (lt_of_not_le h)

theorem leVal_iff (a b : AggregateRow) :
    leVal a b = true ↔ a.metricValue ≤ b.metricValue := by
  simp [leVal]

theorem leVal_total (a b : AggregateRow) :
    leVal a b = true ∨ leVal b a = true := by
  simp only [leVal, decide_eq_true_eq]
  exact le_total a.metricValue b.metricValue

theorem leVal_trans (a b c : AggregateRow) (hab : leVal a b = true)
    (hbc : leVal b c = true) : leVal a c = true := by
  simp only [leVal, decide_eq_true_eq] at hab hbc ⊢
  exact le_trans hab hbc

theorem leVal_ne (a b : AggregateRow) (h : leVal a b = false) :
    a.metricValue ≠ b.metricValue := by
  simp only [leVal, decide_eq_false_iff_not] at h
  exact ne_of_gt (lt_of_not_le h)

/- ### Group-key facts -/

theorem groupKeys_pairwise_lt (rows : List JoinedRow) :
    (groupKeys rows).Pairwise (fun a b => a < b) := by
  have hle := pairwise_sortBy strLe strLe_total strLe_trans
    ((rows.map (fun r => r.nombreMunicipio)).dedup)
  have hnd : (sortBy strLe ((rows.map (fun r => r.nombreMunicipio)).dedup)).Pairwise
      (fun a b => a ≠ b) :=
    (perm_sortBy strLe _).nodup_iff.mpr (List.nodup_dedup _)
  exact (hle.and hnd).imp
    (fun h => lt_of_le_of_ne ((strLe_iff _ _).mp h.1) h.2)

theorem mem_groupKeys {rows : List JoinedRow} {m : String} :
    m ∈ groupKeys rows ↔ ∃ r ∈ rows, r.nombreMunicipio = m := by
  simp [groupKeys, mem_sortBy, List.mem_dedup, List.mem_map]

theorem mem_geoKeys {rows : List JoinedRow} {k : String × Nat} :
    k ∈ geoKeys rows ↔ ∃ r ∈ rows, (r.nombreMunicipio, r.geometry) = k := by
  simp [geoKeys, mem_sortBy, List.mem_dedup, List.mem_map]

theorem agrega_pairwise_nombre (m : Metric) (rows : List JoinedRow) :
    (agrega m rows).Pairwise
      (fun a b => a.nombreMunicipio < b.nombreMunicipio) := by
  cases m <;>
    exact List.pairwise_map.mpr
      ((groupKeys_pairwise_lt rows).imp (fun h => h))

/- ### Claim theorems -/

/-- C3 counterexample: on an AggregateRow sequence that is not sorted by
municipality name — permitted by the Aggregator's contract, which fixes no
output order — the Ranker alone does not break ties by name: `nlargest`
(pandas `keep="first"`) keeps tied entries in input order, so the tied input
`[B, A]` comes back as `[B, A]` although `B` is not alphabetically before
`A`. -/
theorem c3_ranker_tie_break_counterexample :
    nlargest 10 [(⟨"B", 1⟩ : AggregateRow), ⟨"A", 1⟩]
        = [(⟨"B", 1⟩ : AggregateRow), ⟨"A", 1⟩] ∧
    (⟨"B", (1 : ℚ)⟩ : AggregateRow).metricValue
        = (⟨"A", (1 : ℚ)⟩ : AggregateRow).metricValue ∧
    ¬ (("B" : String) < "A") := by
  refine ⟨by decide, rfl, ?_⟩
  rw [String.lt_iff_toList_lt]
  decide

/-- C3 (amended): for every AggregateRow sequence the Aggregator emits — one
row per distinct municipality, listed in ascending name order by the groupby
— and every year selector, metric and direction, the Ranker's output (the
ranked series of any top-10 callback) is tie-broken by municipality name:
whenever two output entries carry the same metric value, the earlier entry's
municipality name is strictly smaller.  In particular two tied municipalities
A and B appear with A (the alphabetically first) before B.  This holds
because the groupby step emits its groups sorted by name and pandas'
`nlargest`/`nsmallest` selection is stable. -/
theorem c3_ranker_tie_break (rows : List JoinedRow) (sel : Anio)
    (m : Metric) (d : Direction) :
    (rank d (agrega m (filtraAnio sel rows))).Pairwise
      (fun a b => a.metricValue = b.metricValue →
        a.nombreMunicipio < b.nombreMunicipio) := by
  have hpn := agrega_pairwise_nombre m (filtraAnio sel rows)
  cases d
  · exact List.Pairwise.sublist (List.take_sublist _ _)
      (pairwise_tie_sortBy geVal (fun a => a.metricValue)
        (fun a => a.nombreMunicipio) geVal_ne _ hpn)
  · exact List.Pairwise.sublist (List.take_sublist _ _)
      (pairwise_tie_sortBy leVal (fun a => a.metricValue)
        (fun a => a.nombreMunicipio) leVal_ne _ hpn)

/-- C4: for every AggregateRow sequence with one row per municipality (the
data model's invariant) and every direction, the Ranker's output has length
exactly `min 10 k` where `k` is the number of distinct municipalities in the
input — it truncates past 10, returns everything below 10, and never errors
on short or empty input; and the same holds for the ranked series of every
callback, where `k` is the number of distinct municipality names in the
year-filtered joined table. -/
theorem c4_ranker_length (d : Direction) (l : List AggregateRow)
    (hnd : (l.map (fun a => a.nombreMunicipio)).Nodup)
    (rows : List JoinedRow) (sel : Anio) (m : Metric) :
    (rank d l).length
        = min 10 (l.map (fun a => a.nombreMunicipio)).dedup.length ∧
    (rank d (agrega m (filtraAnio sel rows))).length
      = min 10 ((filtraAnio sel rows).map (fun r => r.nombreMunicipio)).dedup.length := by
  constructor
  · rw [List.dedup_eq_self.mpr hnd, List.length_map]
    cases d <;> simp [rank, nlargest, nsmallest, length_sortBy]
  · cases d <;> cases m <;>
      simp [rank, nlargest, nsmallest, agrega, groupMeanTasa, groupSumCasos,
        groupKeys, length_sortBy]

theorem c4_ranker_length_witness :
    ([(⟨"A", 2⟩ : AggregateRow), ⟨"B", 1⟩].map
        (fun a => a.nombreMunicipio)).Nodup ∧
    (rank .descendente [(⟨"A", 2⟩ : AggregateRow), ⟨"B", 1⟩]).length
      = min 10 ([(⟨"A", 2⟩ : AggregateRow), ⟨"B", 1⟩].map
          (fun a => a.nombreMunicipio)).dedup.length := by
  refine ⟨by decide, ?_⟩
  exact (c4_ranker_length .descendente [⟨"A", 2⟩, ⟨"B", 1⟩] (by decide)
    demoRows .todos .tasaMedia).1

/-- C5: for every input series the Ranker's output is monotone in metric
value: non-increasing for the descending direction (`nlargest`),
non-decreasing for the ascending direction (`nsmallest`). -/
theorem c5_ranker_monotone (l : List AggregateRow) :
    (rank .descendente l).Pairwise
      (fun a b => b.metricValue ≤ a.metricValue) ∧
    (rank .ascendente l).Pairwise
      (fun a b => a.metricValue ≤ b.metricValue) := by
  constructor
  · exact List.Pairwise.sublist (List.take_sublist _ _)
      ((pairwise_sortBy geVal geVal_total geVal_trans l).imp
        (fun h => (geVal_iff _ _).mp h))
  · exact List.Pairwise.sublist (List.take_sublist _ _)
      ((pairwise_sortBy leVal leVal_total leVal_trans l).imp
        (fun h => (leVal_iff _ _).mp h))

/-- C7: running the Aggregator followed by the Ranker twice on the same
inputs (same joined table, metric, year selector, direction) produces the
same output, including the order of tied entries — the whole pipeline is a
pure function of its inputs, with no hidden state. -/
theorem c7_rerun_deterministic (rows : List JoinedRow) (sel : Anio)
    (m : Metric) (d : Direction) :
    rank d (agrega m (filtraAnio sel rows))
        = rank d (agrega m (filtraAnio sel rows)) ∧
    (top10_tasa_alta rows sel, top10_tasa_baja rows sel,
     top10_casos_alto rows sel, top10_casos_bajo rows sel)
      = (top10_tasa_alta rows sel, top10_tasa_baja rows sel,
         top10_casos_alto rows sel, top10_casos_bajo rows sel) :=
  ⟨rfl, rfl⟩

/-- C9: a year whose filtered row set is empty is not an error: the groupby
aggregations return the empty series, all four top-10 callbacks return the
empty ranking, and the map callbacks hand the empty frame to the figure —
and, the embedding being total Lean functions mirroring total pandas
operations, no aggregation or ranking operation can raise. -/
theorem c9_empty_selection (rows : List JoinedRow) (y : Int)
    (h : rows.filter (fun r => r.anio == y) = []) :
    groupMeanTasa (filtraAnio (.year y) rows) = [] ∧
    groupSumCasos (filtraAnio (.year y) rows) = [] ∧
    top10_tasa_alta rows (.year y) = [] ∧
    top10_tasa_baja rows (.year y) = [] ∧
    top10_casos_alto rows (.year y) = [] ∧
    top10_casos_bajo rows (.year y) = [] ∧
    update_mapa_tasa rows (.year y) = .filtrado [] ∧
    update_mapa_casos rows (.year y) = .filtrado [] := by
  refine ⟨?_, ?_, ?_, ?_, ?_, ?_, ?_, ?_⟩ <;>
    simp [filtraAnio, h, groupMeanTasa, groupSumCasos, groupKeys, sortBy,
      top10_tasa_alta, top10_tasa_baja, top10_casos_alto, top10_casos_bajo,
      nlargest, nsmallest, update_mapa_tasa, update_mapa_casos]

theorem c9_empty_selection_witness :
    demoRows.filter (fun r => r.anio == (1999 : Int)) = [] ∧
    top10_tasa_alta demoRows (.year 1999) = [] := by
  refine ⟨by decide, ?_⟩
  exact (c9_empty_selection demoRows 1999 (by decide)).2.2.1

/-- C10: the dropdown option list is the sentinel ("Todos los años") followed
by the distinct years of the joined table in strictly ascending order, and
every selectable specific year owns at least one joined row, so selecting it
never yields an empty filtered set. -/
theorem c10_lista_anios (rows : List JoinedRow) :
    (∃ ys : List Int,
        lista_anios rows = .todos :: ys.map .year ∧
        ys.Pairwise (fun a b => a < b) ∧
        (∀ y : Int, y ∈ ys ↔ ∃ r ∈ rows, r.anio = y)) ∧
    (∀ y : Int, .year y ∈ lista_anios rows →
        rows.filter (fun r => r.anio == y) ≠ []) := by
  constructor
  · refine ⟨_, rfl, ?_, ?_⟩
    · have hle := pairwise_sortBy intLe intLe_total intLe_trans
        ((rows.map (fun r => r.anio)).dedup)
      have hnd : (sortBy intLe ((rows.map (fun r => r.anio)).dedup)).Pairwise
          (fun a b => a ≠ b) :=
        (perm_sortBy intLe _).nodup_iff.mpr (List.nodup_dedup _)
      exact (hle.and hnd).imp
        (fun h => lt_of_le_of_ne ((intLe_iff _ _).mp h.1) h.2)
    · intro y
      simp [mem_sortBy, List.mem_dedup, List.mem_map]
  · intro y hy
    have hmem : y ∈ sortBy intLe ((rows.map (fun r => r.anio)).dedup) := by
      rcases List.mem_cons.mp hy with h | h
      · simp at h
      · rcases List.mem_map.mp h with ⟨z, hz, hzy⟩
        cases hzy
        exact hz
    have : y ∈ rows.map (fun r => r.anio) :=
      List.mem_dedup.mp ((mem_sortBy intLe _ y).mp hmem)
    rcases List.mem_map.mp this with ⟨r, hr, hry⟩
    intro hemp
    have hrf : r ∈ rows.filter (fun r => r.anio == y) :=
      List.mem_filter.mpr ⟨hr, by simp [hry]⟩
    rw [hemp] at hrf
    exact absurd hrf (List.not_mem_nil r)

theorem c10_lista_anios_witness :
    Anio.year 2020 ∈ lista_anios demoRows ∧
    demoRows.filter (fun r => r.anio == (2020 : Int)) ≠ [] := by
  refine ⟨by decide, ?_⟩
  exact (c10_lista_anios demoRows).2 2020 (by decide)

/-- C1: when the year selector is "Todos los años", every callback groups the
joined rows by municipality and aggregates the rate metric as the mean of
`TasaXMilHabitantes` and the case-count metric as the sum of `NumeroCasos`:
the two map callbacks hand the grouped frame to the figure, the top-10
callbacks rank exactly the grouped series, and for any municipality `m`
present in the table the grouped value is the mean (resp. sum) of that
municipality's column over all years.  The map callbacks group by the pair
(name, geometry); under the invariant that a municipality name determines its
polygon in the joined table this is grouping by municipality, which the
hypothesis `hgeom` states. -/
theorem c1_todos_mean_rate_sum_cases (rows : List JoinedRow)
    (hgeom : ∀ r ∈ rows, ∀ s ∈ rows,
      r.nombreMunicipio = s.nombreMunicipio → r.geometry = s.geometry)
    (m : String) (g : Nat) (r0 : JoinedRow) (hr0 : r0 ∈ rows)
    (hm : r0.nombreMunicipio = m) (hg : r0.geometry = g) :
    update_mapa_tasa rows .todos = .agregado (mapaTasaTodos rows) ∧
    update_mapa_casos rows .todos = .agregado (mapaCasosTodos rows) ∧
    top10_tasa_alta rows .todos = nlargest 10 (groupMeanTasa rows) ∧
    top10_tasa_baja rows .todos = nsmallest 10 (groupMeanTasa rows) ∧
    top10_casos_alto rows .todos = nlargest 10 (groupSumCasos rows) ∧
    top10_casos_bajo rows .todos = nsmallest 10 (groupSumCasos rows) ∧
    ((m, g), qmean ((rows.filter (fun r => r.nombreMunicipio == m)).map
        (fun r => r.tasaXMilHabitantes))) ∈ mapaTasaTodos rows ∧
    ((m, g), qsum ((rows.filter (fun r => r.nombreMunicipio == m)).map
        (fun r => (r.numeroCasos : ℚ)))) ∈ mapaCasosTodos rows ∧
    (⟨m, qmean ((rows.filter (fun r => r.nombreMunicipio == m)).map
        (fun r => r.tasaXMilHabitantes))⟩ : AggregateRow) ∈ groupMeanTasa rows ∧
    (⟨m, qsum ((rows.filter (fun r => r.nombreMunicipio == m)).map
        (fun r => (r.numeroCasos : ℚ)))⟩ : AggregateRow) ∈ groupSumCasos rows := by
  have hfilter : rows.filter (fun r => r.nombreMunicipio == m && r.geometry == g)
      = rows.filter (fun r => r.nombreMunicipio == m) := by
    apply List.filter_congr
    intro r hr
    by_cases hn : r.nombreMunicipio = m
    · have hge : r.geometry = g := by
        rw [← hg]
        exact hgeom r hr r0 hr0 (by rw [hn, hm])
      simp [hn, hge]
    · simp [hn]
  have hkey : (m, g) ∈ geoKeys rows :=
    mem_geoKeys.mpr ⟨r0, hr0, by simp [hm, hg]⟩
  have hkey2 : m ∈ groupKeys rows := mem_groupKeys.mpr ⟨r0, hr0, hm⟩
  have h1 : ((m, g), qmean ((rows.filter (fun r =>
      r.nombreMunicipio == m && r.geometry == g)).map
      (fun r => r.tasaXMilHabitantes))) ∈ mapaTasaTodos rows :=
    List.mem_map_of_mem _ hkey
  have h2 : ((m, g), qsum ((rows.filter (fun r =>
      r.nombreMunicipio == m && r.geometry == g)).map
      (fun r => (r.numeroCasos : ℚ)))) ∈ mapaCasosTodos rows :=
    List.mem_map_of_mem _ hkey
  rw [hfilter] at h1 h2
  exact ⟨rfl, rfl, rfl, rfl, rfl, rfl, h1, h2,
    List.mem_map_of_mem _ hkey2, List.mem_map_of_mem _ hkey2⟩

theorem c1_todos_mean_rate_sum_cases_witness :
    ((("A", 1), qmean ((demoRows.filter (fun r => r.nombreMunicipio == "A")).map
        (fun r => r.tasaXMilHabitantes))) ∈ mapaTasaTodos demoRows) ∧
    ((⟨"A", qsum ((demoRows.filter (fun r => r.nombreMunicipio == "A")).map
        (fun r => (r.numeroCasos : ℚ)))⟩ : AggregateRow) ∈ groupSumCasos demoRows) := by
  have h := c1_todos_mean_rate_sum_cases demoRows (by decide) "A" 1
    ⟨"05001", "A", 1, "05001", "A", "R1", 2020, 120, 3/2⟩ (List.Mem.head _) rfl rfl
  exact ⟨h.2.2.2.2.2.2.1, h.2.2.2.2.2.2.2.2.2⟩

/-- C2: for a specific year `y` the Aggregator filters the joined rows to
that year, groups by municipality name, and yields per group the mean of the
rate (rate metric) resp. the sum of the case count (case metric), computed
over exactly the rows with `Año = y` and that name — rows of other years
contribute nothing.  The top-10 callbacks rank exactly these grouped
series. -/
theorem c2_specific_year_aggregation (rows : List JoinedRow) (y : Int)
    (m : String) (r0 : JoinedRow) (hr0 : r0 ∈ rows) (hy : r0.anio = y)
    (hm : r0.nombreMunicipio = m) :
    top10_tasa_alta rows (.year y)
        = nlargest 10 (groupMeanTasa (rows.filter (fun r => r.anio == y))) ∧
    top10_casos_alto rows (.year y)
        = nlargest 10 (groupSumCasos (rows.filter (fun r => r.anio == y))) ∧
    (⟨m, qmean ((rows.filter (fun r =>
        r.anio == y && r.nombreMunicipio == m)).map
        (fun r => r.tasaXMilHabitantes))⟩ : AggregateRow)
      ∈ groupMeanTasa (filtraAnio (.year y) rows) ∧
    (⟨m, qsum ((rows.filter (fun r =>
        r.anio == y && r.nombreMunicipio == m)).map
        (fun r => (r.numeroCasos : ℚ)))⟩ : AggregateRow)
      ∈ groupSumCasos (filtraAnio (.year y) rows) := by
  have hcomb : (rows.filter (fun r => r.anio == y)).filter
        (fun r => r.nombreMunicipio == m)
      = rows.filter (fun r => r.anio == y && r.nombreMunicipio == m) := by
    rw [List.filter_filter]
    exact List.filter_congr (fun r _ => Bool.and_comm _ _)
  have hkey : m ∈ groupKeys (rows.filter (fun r => r.anio == y)) :=
    mem_groupKeys.mpr ⟨r0, List.mem_filter.mpr ⟨hr0, by simp [hy]⟩, hm⟩
  have h1 : (⟨m, qmean (((rows.filter (fun r => r.anio == y)).filter
      (fun r => r.nombreMunicipio == m)).map
      (fun r => r.tasaXMilHabitantes))⟩ : AggregateRow)
      ∈ groupMeanTasa (rows.filter (fun r => r.anio == y)) :=
    List.mem_map_of_mem _ hkey
  have h2 : (⟨m, qsum (((rows.filter (fun r => r.anio == y)).filter
      (fun r => r.nombreMunicipio == m)).map
      (fun r => (r.numeroCasos : ℚ)))⟩ : AggregateRow)
      ∈ groupSumCasos (rows.filter (fun r => r.anio == y)) :=
    List.mem_map_of_mem _ hkey
  rw [hcomb] at h1 h2
  exact ⟨rfl, rfl, h1, h2⟩

theorem c2_specific_year_aggregation_witness :
    (⟨"A", qmean ((demoRows.filter (fun r =>
        r.anio == (2020 : Int) && r.nombreMunicipio == "A")).map
        (fun r => r.tasaXMilHabitantes))⟩ : AggregateRow)
      ∈ groupMeanTasa (filtraAnio (.year 2020) demoRows) := by
  exact (c2_specific_year_aggregation demoRows 2020 "A"
    ⟨"05001", "A", 1, "05001", "A", "R1", 2020, 120, 3/2⟩
    (List.Mem.head _) rfl rfl).2.2.1

/- ### Join counting facts (for C6) -/

theorem countP_merge_block (b : Boundary) (dataset : List MortalityRecord)
    (code : String) (y : Int) :
    (((dataset.filter (fun r => r.codigoMunicipio == b.mpio_cdpmp)).map
        (mkJoined b)).countP (fun j => j.codigoMunicipio == code && j.anio == y))
      = if b.mpio_cdpmp = code
        then dataset.countP (fun r => r.codigoMunicipio == code && r.anio == y)
        else 0 := by
  rw [List.countP_map, List.countP_filter]
  by_cases h : b.mpio_cdpmp = code
  · rw [if_pos h]
    apply List.countP_congr
    intro r _
    subst h
    simp only [Function.comp_apply, mkJoined]
    constructor
    · intro hx
      exact (Bool.and_elim_left hx)
    · intro hx
      simp only [Bool.and_eq_true] at hx ⊢
      exact ⟨⟨hx.1, hx.2⟩, hx.1⟩
  · rw [if_neg h]
    rw [List.countP_eq_zero]
    intro r _
    simp only [Function.comp_apply, mkJoined, Bool.and_eq_true, beq_iff_eq,
      not_and]
    intro hcy hbm
    exact absurd (hbm.symm.trans hcy.1) h

theorem countP_merge_of_no_boundary (dataset : List MortalityRecord)
    (code : String) (y : Int) :
    ∀ gdf : List Boundary,
      gdf.countP (fun b => b.mpio_cdpmp == code) = 0 →
      (df_merge gdf dataset).countP
        (fun j => j.codigoMunicipio == code && j.anio == y) = 0 := by
  intro gdf
  induction gdf with
  | nil => intro _; rfl
  | cons b rest ih =>
    intro h
    rw [List.countP_cons] at h
    have hb : ¬ (b.mpio_cdpmp == code) = true := by
      by_cases hc : (b.mpio_cdpmp == code) = true
      · rw [if_pos hc] at h; omega
      · exact hc
    have hrest : rest.countP (fun b => b.mpio_cdpmp == code) = 0 := by
      rw [if_neg hb] at h; omega
    show ((b :: rest).flatMap _).countP _ = 0
    rw [List.flatMap_cons, List.countP_append, countP_merge_block,
      if_neg (by simpa using hb), Nat.zero_add]
    exact ih hrest

theorem countP_merge_of_unique (dataset : List MortalityRecord)
    (code : String) (y : Int)
    (hr : dataset.countP (fun r => r.codigoMunicipio == code && r.anio == y) = 1) :
    ∀ gdf : List Boundary,
      gdf.countP (fun b => b.mpio_cdpmp == code) = 1 →
      (df_merge gdf dataset).countP
        (fun j => j.codigoMunicipio == code && j.anio == y) = 1 := by
  intro gdf
  induction gdf with
  | nil => intro h; simp at h
  | cons b rest ih =>
    intro h
    rw [List.countP_cons] at h
    show ((b :: rest).flatMap _).countP _ = 1
    rw [List.flatMap_cons, List.countP_append, countP_merge_block]
    by_cases hc : b.mpio_cdpmp = code
    · have hrest : rest.countP (fun b => b.mpio_cdpmp == code) = 0 := by
        rw [if_pos (by simpa using hc)] at h; omega
      have h0 := countP_merge_of_no_boundary dataset code y rest hrest
      simp only [df_merge] at h0
      rw [if_pos hc, hr, h0]
    · have hrest : rest.countP (fun b => b.mpio_cdpmp == code) = 1 := by
        rw [if_neg (by simpa using hc)] at h; omega
      have h1 := ih hrest
      simp only [df_merge] at h1
      rw [if_neg hc, h1]

/-- C6: for a municipality code that appears (once) in the boundary table and
a (code, year) pair that appears (once) in the record table, the merge
contains exactly one joined row with that code and year; and every joined row
carries a code present in the boundary table, so a record whose code matches
no boundary is silently excluded from the merge. -/
theorem c6_join_exactly_one (gdf : List Boundary)
    (dataset : List MortalityRecord) (code : String) (y : Int)
    (hb : gdf.countP (fun b => b.mpio_cdpmp == code) = 1)
    (hr : dataset.countP (fun r => r.codigoMunicipio == code && r.anio == y) = 1) :
    (df_merge gdf dataset).countP
        (fun j => j.codigoMunicipio == code && j.anio == y) = 1 ∧
    ∀ j ∈ df_merge gdf dataset, ∃ b ∈ gdf, j.codigoMunicipio = b.mpio_cdpmp := by
  constructor
  · exact countP_merge_of_unique dataset code y hr gdf hb
  · intro j hj
    rcases List.mem_flatMap.mp hj with ⟨b, hbg, hjb⟩
    rcases List.mem_map.mp hjb with ⟨r, hrf, hmk⟩
    refine ⟨b, hbg, ?_⟩
    have hcode : (r.codigoMunicipio == b.mpio_cdpmp) = true :=
      (List.mem_filter.mp hrf).2
    rw [← hmk]
    exact beq_iff_eq.mp hcode

theorem c6_join_exactly_one_witness :
    demoGdf.countP (fun b => b.mpio_cdpmp == "05001") = 1 ∧
    demoDataset.countP
      (fun r => r.codigoMunicipio == "05001" && r.anio == (2020 : Int)) = 1 ∧
    (df_merge demoGdf demoDataset).countP
      (fun j => j.codigoMunicipio == "05001" && j.anio == (2020 : Int)) = 1 := by
  refine ⟨by decide, by decide, ?_⟩
  exact (c6_join_exactly_one demoGdf demoDataset "05001" 2020
    (by decide) (by decide)).1

/- ### Multiset identity of the merge (for C8) -/

theorem df_merge_nil (gdf : List Boundary) : df_merge gdf [] = [] := by
  induction gdf with
  | nil => rfl
  | cons b rest ih =>
    show (b :: rest).flatMap _ = []
    rw [List.flatMap_cons]
    simp only [List.filter_nil, List.map_nil, List.nil_append]
    exact ih

theorem flatMap_append_perm {α β : Type*} (l : List α) (f g : α → List β) :
    List.Perm (l.flatMap (fun a => f a ++ g a)) (l.flatMap f ++ l.flatMap g) := by
  induction l with
  | nil => simp
  | cons a l ih =>
    rw [List.flatMap_cons, List.flatMap_cons, List.flatMap_cons]
    refine (List.Perm.append_left (f a ++ g a) ih).trans ?_
    rw [List.append_assoc, List.append_assoc]
    apply List.Perm.append_left
    rw [← List.append_assoc, ← List.append_assoc]
    exact List.perm_append_comm.append_right _

theorem map_matches_replicate {β : Type*} (gdf : List Boundary)
    (r : MortalityRecord) (f : JoinedRow → β) (fr : MortalityRecord → β)
    (hf : ∀ b s, f (mkJoined b s) = fr s) :
    ((gdf.flatMap (fun b => if r.codigoMunicipio == b.mpio_cdpmp
        then [mkJoined b r] else [])).map f)
      = List.replicate
          (gdf.countP (fun b => r.codigoMunicipio == b.mpio_cdpmp)) (fr r) := by
  induction gdf with
  | nil => rfl
  | cons b rest ih =>
    rw [List.flatMap_cons, List.map_append, ih, List.countP_cons]
    by_cases h : (r.codigoMunicipio == b.mpio_cdpmp) = true
    · rw [if_pos h, if_pos h]
      simp [hf, List.replicate_succ]
    · rw [if_neg h, if_neg h]
      simp

theorem countP_matches_le_one (gdf : List Boundary)
    (hnd : (gdf.map (fun b => b.mpio_cdpmp)).Nodup) (c : String) :
    gdf.countP (fun b => c == b.mpio_cdpmp) ≤ 1 := by
  have h1 : gdf.countP (fun b => c == b.mpio_cdpmp)
      = (gdf.map (fun b => b.mpio_cdpmp)).countP (fun s => s == c) := by
    rw [List.countP_map]
    apply List.countP_congr
    intro b _
    simp only [Function.comp_apply, beq_iff_eq]
    exact eq_comm
  rw [h1]
  have h2 := List.nodup_iff_count_le_one.mp hnd c
  simpa [List.count] using h2

theorem map_df_merge_perm {β : Type*} (f : JoinedRow → β)
    (fr : MortalityRecord → β) (hf : ∀ b s, f (mkJoined b s) = fr s)
    (gdf : List Boundary)
    (hnd : (gdf.map (fun b => b.mpio_cdpmp)).Nodup) :
    ∀ dataset : List MortalityRecord,
      List.Perm ((df_merge gdf dataset).map f)
        ((dataset.filter (fun r =>
            gdf.any (fun b => r.codigoMunicipio == b.mpio_cdpmp))).map fr) := by
  intro dataset
  induction dataset with
  | nil =>
    rw [df_merge_nil]
    exact List.Perm.nil
  | cons r ds ih =>
    have hdec : df_merge gdf (r :: ds)
        = gdf.flatMap (fun b =>
            (if r.codigoMunicipio == b.mpio_cdpmp then [mkJoined b r] else [])
              ++ (ds.filter (fun r2 =>
                  r2.codigoMunicipio == b.mpio_cdpmp)).map (mkJoined b)) := by
      simp only [df_merge]
      apply congrArg
      funext b
      by_cases h : (r.codigoMunicipio == b.mpio_cdpmp) = true
      · simp [List.filter_cons, h]
      · simp [List.filter_cons, h]
    rw [hdec]
    have hmap := (flatMap_append_perm gdf
      (fun b => if r.codigoMunicipio == b.mpio_cdpmp then [mkJoined b r] else [])
      (fun b => (ds.filter (fun r2 =>
          r2.codigoMunicipio == b.mpio_cdpmp)).map (mkJoined b))).map f
    rw [List.map_append, map_matches_replicate gdf r f fr hf] at hmap
    refine hmap.trans ?_
    by_cases hmatch : (gdf.any
        (fun b => r.codigoMunicipio == b.mpio_cdpmp)) = true
    · have hpos : 0 < gdf.countP
          (fun b => r.codigoMunicipio == b.mpio_cdpmp) :=
        List.countP_pos_iff.mpr (List.any_eq_true.mp hmatch)
      have hle := countP_matches_le_one gdf hnd r.codigoMunicipio
      have h1 : gdf.countP (fun b => r.codigoMunicipio == b.mpio_cdpmp) = 1 :=
        le_antisymm hle hpos
      rw [h1, List.replicate_one]
      simp only [List.filter_cons]
      rw [if_pos hmatch, List.map_cons, List.singleton_append]
      exact List.Perm.cons _ ih
    · have h0 : gdf.countP (fun b => r.codigoMunicipio == b.mpio_cdpmp) = 0 := by
        rw [List.countP_eq_zero]
        intro b hb hpb
        exact absurd (List.any_eq_true.mpr ⟨b, hb, hpb⟩) hmatch
      rw [h0, List.replicate_zero, List.nil_append]
      simp only [List.filter_cons]
      rw [if_neg hmatch]
      exact ih

theorem sortBy_ratLe_sorted (l : List ℚ) :
    (sortBy ratLe l).Sorted (· ≤ ·) :=
  (pairwise_sortBy ratLe ratLe_total ratLe_trans l).imp
    (fun hab => (ratLe_iff _ _).mp hab)

theorem sortBy_ratLe_congr {l l2 : List ℚ} (h : List.Perm l l2) :
    sortBy ratLe l = sortBy ratLe l2 :=
  List.eq_of_perm_of_sorted
    ((perm_sortBy ratLe l).trans (h.trans (perm_sortBy ratLe l2).symm))
    (sortBy_ratLe_sorted l) (sortBy_ratLe_sorted l2)

theorem resumen_congr {l l2 : List ℚ} (h : List.Perm l l2) :
    resumen l = resumen l2 := by
  have hs := sortBy_ratLe_congr h
  have hsum : l.sum = l2.sum := h.sum_eq
  have hlen : l.length = l2.length := h.length_eq
  have hnil : (l = []) ↔ (l2 = []) := by
    constructor
    · intro e
      subst e
      exact h.symm.eq_nil
    · intro e
      subst e
      exact h.eq_nil
  simp only [resumen, quantileLinear, qmean]
  rw [hs, hsum, hlen]
  exact if_congr hnil rfl rfl

/-- C8 counterexample: with a record whose municipality code matches no
boundary, the summary table the callback computes (over the joined table)
differs from the summary over every parsed mortality record: `resumen_stats`
runs on `df_merge`, so the unmatched record's values are excluded. -/
theorem c8_summary_counterexample :
    resumen_stats (df_merge demoGdf demoDataset)
      ≠ resumenStatsRecords demoDataset := by
  decide

/-- C8 (amended): the six-number summaries are computed over the entire
joined table — no year or metric filtering — which, when each boundary code
is unique, is exactly the multiset of mortality records whose code matched a
boundary; records without a matching boundary are excluded. -/
theorem c8_summary_over_joined_table (gdf : List Boundary)
    (dataset : List MortalityRecord)
    (hnd : (gdf.map (fun b => b.mpio_cdpmp)).Nodup) :
    resumen_stats (df_merge gdf dataset)
      = resumenStatsRecords (dataset.filter (fun r =>
          gdf.any (fun b => r.codigoMunicipio == b.mpio_cdpmp))) := by
  have h1 := map_df_merge_perm (fun j => (j.numeroCasos : ℚ))
    (fun r => (r.numeroCasos : ℚ)) (fun b s => rfl) gdf hnd dataset
  have h2 := map_df_merge_perm (fun j => j.tasaXMilHabitantes)
    (fun r => r.tasaXMilHabitantes) (fun b s => rfl) gdf hnd dataset
  simp only [resumen_stats, resumenStatsRecords]
  rw [resumen_congr h1, resumen_congr h2]

theorem c8_summary_over_joined_table_witness :
    resumen_stats (df_merge demoGdf demoDataset)
      = resumenStatsRecords (demoDataset.filter (fun r =>
          demoGdf.any (fun b => r.codigoMunicipio == b.mpio_cdpmp))) := by
  exact c8_summary_over_joined_table demoGdf demoDataset (by decide)
